import Mathlib

/-!
Verification of the mahjong-front payroll / game-result computation layer.

Shallow embedding of the relevant frontend computations:
monetary amounts and counts are embedded as `Int` (all operations the
claims touch are integer additions, subtractions and comparisons),
nullable JavaScript values as `Option`, and thrown exceptions as
`Except`.
-/

/-- Game variants (types/gameResult.ts): four-player or three-player mahjong. -/
inductive GameType
  | YONMA
  | SANMA
  deriving DecidableEq, Repr

/-- Game-fee fields of the per-user GameSettings record (api/gameSettingsApi.ts).
Only the three fee fields read by the result form are embedded. -/
structure GameFeeSettings where
  yonmaGameFee : Int
  sanmaGameFee : Int
  sanmaGameFeeBack : Int
  deriving DecidableEq, Repr

/-- `settings.value?.yonmaGameFee ?? 0` (views/results/ResultForm.vue). -/
def currentYonmaGameFee (s : Option GameFeeSettings) : Int :=
  (s.map GameFeeSettings.yonmaGameFee).getD 0

/-- `settings.value?.sanmaGameFee ?? 0` (views/results/ResultForm.vue). -/
def currentSanmaGameFee (s : Option GameFeeSettings) : Int :=
  (s.map GameFeeSettings.sanmaGameFee).getD 0

/-- `settings.value?.sanmaGameFeeBack ?? 0` (views/results/ResultForm.vue). -/
def currentSanmaGameFeeBack (s : Option GameFeeSettings) : Int :=
  (s.map GameFeeSettings.sanmaGameFeeBack).getD 0

/-- `recalcTotalIncome` from views/results/ResultForm.vue: starts from
`baseIncome + tipIncome`, deducts the game fee of the current game type when
`place === 1`, and adds the sanma fee-back whenever the game type is SANMA.
The form state has no otherIncome field, so no such term appears. -/
def recalcTotalIncome (s : Option GameFeeSettings) (gameType : GameType)
    (place : Int) (baseIncome tipIncome : Int) : Int :=
  let total := baseIncome + tipIncome
  match gameType with
  | GameType.YONMA =>
      if place = 1 then total - currentYonmaGameFee s else total
  | GameType.SANMA =>
      (if place = 1 then total - currentSanmaGameFee s else total)
        + currentSanmaGameFeeBack s

/-- The total-income formula as the specification states it (spec §3 and §4.6):
baseIncome + tipIncome + otherIncome, minus the fee of the game type when
place = 1, plus the sanma fee-back whenever the game type is SANMA. Declared
only to be compared against `recalcTotalIncome`, which is taken from the code. -/
def totalIncomeSpec (s : Option GameFeeSettings) (gameType : GameType)
    (place : Int) (baseIncome tipIncome otherIncome : Int) : Int :=
  baseIncome + tipIncome + otherIncome
    - (if gameType = GameType.YONMA ∧ place = 1 then currentYonmaGameFee s else 0)
    - (if gameType = GameType.SANMA ∧ place = 1 then currentSanmaGameFee s else 0)
    + (if gameType = GameType.SANMA then currentSanmaGameFeeBack s else 0)

/-- C1 (counterexample): at the specification example itself — SANMA, place 2,
baseIncome −1000, tipIncome 0, otherIncome 1500, sanmaGameFeeBack 200 — the
form recomputation yields −800, not the claimed base+tip+other formula value
of 700: the result form has no otherIncome input and its recomputation never
adds such a term. -/
theorem C1_counterexample :
    recalcTotalIncome (some ⟨500, 400, 200⟩) GameType.SANMA 2 (-1000) 0 ≠
      totalIncomeSpec (some ⟨500, 400, 200⟩) GameType.SANMA 2 (-1000) 0 1500 := by
  decide

/-- C1 (amended): for every recomputation of a game result from the signed
inputs the form actually has (baseIncome, tipIncome, gameType, place), the
recomputed totalIncome equals baseIncome + tipIncome, minus the yonma game fee
when gameType is YONMA and place = 1, minus the sanma game fee when gameType is
SANMA and place = 1, plus the sanma fee-back whenever gameType is SANMA; that
is, the specification formula with otherIncome fixed to 0. -/
theorem C1_recalc_total_income (s : Option GameFeeSettings) (gameType : GameType)
    (place baseIncome tipIncome : Int) :
    recalcTotalIncome s gameType place baseIncome tipIncome =
      totalIncomeSpec s gameType place baseIncome tipIncome 0 := by
  cases gameType <;> by_cases h : place = 1 <;>
    simp [recalcTotalIncome, totalIncomeSpec, h]

/-- Maximum place for a game type: `formValue.gameType === 'SANMA' ? 3 : 4`
(views/results/ResultForm.vue, gameType watcher). -/
def maxPlace (gameType : GameType) : Int :=
  if gameType = GameType.SANMA then 3 else 4

/-- The gameType watcher of views/results/ResultForm.vue:
`if (!formValue.place || formValue.place > max) formValue.place = max`.
In the integer embedding, `!formValue.place` is `place = 0` (the form place is
a non-null number; 0 is the only falsy value reachable here). -/
def clampPlaceOnGameTypeChange (gameType : GameType) (place : Int) : Int :=
  if place = 0 ∨ maxPlace gameType < place then maxPlace gameType else place

/-- C7: across every gameType change on the result form, the place invariant
1 ≤ place ≤ maxPlace is restored: the watcher clamps place down to the new
maximum when it exceeds it (YONMA place 4 switched to SANMA becomes 3), and
leaves a still-valid place unchanged. -/
theorem C7_place_clamp (gameType : GameType) (place : Int) (h : 0 ≤ place) :
    (1 ≤ clampPlaceOnGameTypeChange gameType place ∧
      clampPlaceOnGameTypeChange gameType place ≤ maxPlace gameType) ∧
    (maxPlace gameType < place →
      clampPlaceOnGameTypeChange gameType place = maxPlace gameType) ∧
    (1 ≤ place → place ≤ maxPlace gameType →
      clampPlaceOnGameTypeChange gameType place = place) ∧
    clampPlaceOnGameTypeChange GameType.SANMA 4 = 3 := by
  cases gameType <;>
    simp only [clampPlaceOnGameTypeChange, maxPlace] <;>
    refine ⟨?_, ?_, ?_, by decide⟩ <;> split <;> omega

/-- C7 witness: the theorem applied to the concrete switch YONMA place 4 →
SANMA, which clamps the place to 3. -/
theorem C7_place_clamp_witness :
    (0 : Int) ≤ 4 ∧
    ((1 ≤ clampPlaceOnGameTypeChange GameType.SANMA 4 ∧
      clampPlaceOnGameTypeChange GameType.SANMA 4 ≤ maxPlace GameType.SANMA) ∧
    (maxPlace GameType.SANMA < 4 →
      clampPlaceOnGameTypeChange GameType.SANMA 4 = maxPlace GameType.SANMA) ∧
    (1 ≤ (4 : Int) → (4 : Int) ≤ maxPlace GameType.SANMA →
      clampPlaceOnGameTypeChange GameType.SANMA 4 = 4) ∧
    clampPlaceOnGameTypeChange GameType.SANMA 4 = 3) :=
  ⟨by decide, C7_place_clamp GameType.SANMA 4 (by decide)⟩

/-- Shift types of the shift board (api/shiftBoard.ts): EARLY or LATE. -/
inductive ShiftBoardShiftType
  | EARLY
  | LATE
  deriving DecidableEq, Repr

/-- The `{ start, end }` record returned by `getDefaultRequirement`. -/
structure DefaultRequirement where
  start : Int
  «end» : Int
  deriving DecidableEq, Repr

/-- `getDefaultRequirement` from the shift board requirement component
(src/unnamed/part_002). The source computes `dayjs(date).day()` from the date
string; the embedding takes that weekday directly (0 = Sunday … 6 = Saturday,
the dayjs convention). The trailing `{ start: 0, end: 0 }` fallback of the
source is unreachable for the two-valued shift type and has no counterpart
here. -/
def getDefaultRequirement (shiftType : ShiftBoardShiftType) (day : Nat) :
    DefaultRequirement :=
  match shiftType with
  | ShiftBoardShiftType.EARLY =>
      if 1 ≤ day ∧ day ≤ 4 then ⟨3, 3⟩
      else if day = 5 then ⟨3, 4⟩
      else ⟨4, 4⟩
  | ShiftBoardShiftType.LATE =>
      if 1 ≤ day ∧ day ≤ 4 then ⟨4, 3⟩
      else if day = 5 ∨ day = 6 then ⟨5, 4⟩
      else ⟨4, 3⟩

/-- A requirement cell of the shift board (RequirementCell in
src/unnamed/part_002): required and actual staffing counts for one
date / shift-type pair. -/
structure RequirementCell where
  requiredStart : Int
  requiredEnd : Int
  startActual : Int
  endActual : Int
  editable : Bool
  deriving DecidableEq, Repr

/-- One entry of the `requirementInputs` reactive state
(src/unnamed/part_002); the fields are `number | null`. -/
structure RequirementInputState where
  requiredStart : Option Int
  requiredEnd : Option Int
  deriving DecidableEq, Repr

/-- `syncRequirementInputs` (src/unnamed/part_002) restricted to a single
date: the input cell is filled from the requirement row when one exists, and
from `getDefaultRequirement` otherwise. -/
def syncRequirementInput (shiftType : ShiftBoardShiftType) (day : Nat)
    (value : Option RequirementCell) : RequirementInputState :=
  { requiredStart :=
      some ((value.map RequirementCell.requiredStart).getD
        (getDefaultRequirement shiftType day).start),
    requiredEnd :=
      some ((value.map RequirementCell.requiredEnd).getD
        (getDefaultRequirement shiftType day).«end») }

/-- `differenceByDate` (src/unnamed/part_002) restricted to a single date:
required counts resolve input state, then requirement row, then defaults; the
difference is actual minus required for each of the start and end instants. -/
def differenceForDate (shiftType : ShiftBoardShiftType) (day : Nat)
    (input : Option RequirementInputState)
    (requirement : Option RequirementCell) : Int × Int :=
  let requiredStart :=
    ((input.bind RequirementInputState.requiredStart).getD
      ((requirement.map RequirementCell.requiredStart).getD
        (getDefaultRequirement shiftType day).start))
  let requiredEnd :=
    ((input.bind RequirementInputState.requiredEnd).getD
      ((requirement.map RequirementCell.requiredEnd).getD
        (getDefaultRequirement shiftType day).«end»))
  ((requirement.map RequirementCell.startActual).getD 0 - requiredStart,
    (requirement.map RequirementCell.endActual).getD 0 - requiredEnd)

/-- `differenceClass` (src/unnamed/part_002): display class of a staffing
difference. -/
def differenceClass (value : Int) : String :=
  if value > 0 then "diff-positive"
  else if value < 0 then "diff-negative"
  else "diff-neutral"

/-- C4 (counterexample): for the LATE shift type, Saturday (weekday 6) and
Sunday (weekday 0) do not share a default requirement — Saturday defaults to
(5, 4) together with Friday, while Sunday defaults to (4, 3) together with
Mon–Thu — so the defaults are not grouped as Mon–Thu / Fri / Sat–Sun. -/
theorem C4_counterexample :
    getDefaultRequirement ShiftBoardShiftType.LATE 6 ≠
      getDefaultRequirement ShiftBoardShiftType.LATE 0 := by
  decide

/-- C4 (amended): for every board date without an explicit requirement row,
the default required start/end counts are determined solely by the weekday and
the shift type, following this exact table: EARLY — Mon–Thu (3, 3), Fri
(3, 4), Sat and Sun (4, 4); LATE — Mon–Thu and Sun (4, 3), Fri and Sat
(5, 4). -/
theorem C4_default_requirement_table (shiftType : ShiftBoardShiftType)
    (day : Nat) :
    syncRequirementInput shiftType day none =
      ⟨some (getDefaultRequirement shiftType day).start,
        some (getDefaultRequirement shiftType day).«end»⟩ ∧
    (∀ d, 1 ≤ d → d ≤ 4 →
      getDefaultRequirement ShiftBoardShiftType.EARLY d = ⟨3, 3⟩ ∧
      getDefaultRequirement ShiftBoardShiftType.LATE d = ⟨4, 3⟩) ∧
    getDefaultRequirement ShiftBoardShiftType.EARLY 5 = ⟨3, 4⟩ ∧
    getDefaultRequirement ShiftBoardShiftType.EARLY 6 = ⟨4, 4⟩ ∧
    getDefaultRequirement ShiftBoardShiftType.EARLY 0 = ⟨4, 4⟩ ∧
    getDefaultRequirement ShiftBoardShiftType.LATE 5 = ⟨5, 4⟩ ∧
    getDefaultRequirement ShiftBoardShiftType.LATE 6 = ⟨5, 4⟩ ∧
    getDefaultRequirement ShiftBoardShiftType.LATE 0 = ⟨4, 3⟩ := by
  refine ⟨rfl, fun d h1 h4 => ?_, by decide, by decide, by decide,
    by decide, by decide, by decide⟩
  constructor <;> · simp only [getDefaultRequirement]
                    rw [if_pos ⟨h1, h4⟩]

/-- C5: for every date / shift-type cell of the shift board whose input state
is synced from an existing requirement row, the staffing difference equals
startActual − requiredStart for the start instant and endActual − requiredEnd
for the end instant; a difference is classified `diff-positive` exactly when
it is > 0, `diff-negative` exactly when it is < 0, and `diff-neutral` exactly
when it is 0 (required 3 with actual 5 gives +2, required 4 with actual 2
gives −2). -/
theorem C5_staffing_difference (shiftType : ShiftBoardShiftType) (day : Nat)
    (cell : RequirementCell) (value : Int) :
    differenceForDate shiftType day
        (some (syncRequirementInput shiftType day (some cell))) (some cell) =
      (cell.startActual - cell.requiredStart,
        cell.endActual - cell.requiredEnd) ∧
    (differenceClass value = "diff-positive" ↔ 0 < value) ∧
    (differenceClass value = "diff-negative" ↔ value < 0) ∧
    (differenceClass value = "diff-neutral" ↔ value = 0) ∧
    (differenceForDate ShiftBoardShiftType.EARLY 2 none
      (some ⟨3, 3, 5, 4, true⟩)).1 = 2 ∧
    (differenceForDate ShiftBoardShiftType.EARLY 2 none
      (some ⟨4, 4, 2, 3, true⟩)).1 = -2 := by
  refine ⟨by simp [differenceForDate, syncRequirementInput], ?_, ?_, ?_,
    by decide, by decide⟩ <;>
    · simp only [differenceClass]
      split <;> rename_i h1
      · simp only [String.reduceEq, false_iff, true_iff]
        omega
      · split <;> rename_i h2 <;>
          simp only [String.reduceEq, false_iff, true_iff] <;> omega

/-- Splits a character list at every occurrence of the separator, keeping
empty pieces, like the JavaScript single-character `split`. -/
def splitCharList (c : Char) : List Char → List (List Char)
  | [] => [[]]
  | x :: xs =>
      let rest := splitCharList c xs
      if x = c then [] :: rest
      else
        match rest with
        | [] => [[x]]
        | y :: ys => (x :: y) :: ys

/-- `value.split(c)` for a single-character separator, as a kernel-reducible
model of the JavaScript string split. -/
def splitOnChar (value : String) (c : Char) : List String :=
  (splitCharList c value.data).map String.mk

/-- Removes leading and trailing whitespace, as the JavaScript `Number(...)`
conversion does before reading digits. -/
def trimChars (l : List Char) : List Char :=
  ((l.dropWhile Char.isWhitespace).reverse.dropWhile Char.isWhitespace).reverse

/-- Value of a list of decimal digit characters. -/
def digitsToNat (l : List Char) : Nat :=
  l.foldl (fun acc c => acc * 10 + (c.toNat - 48)) 0

/-- Model of the JavaScript `Number(...)` conversion applied to the parts of a
split time string (undefined converts to NaN, embedded as `none`; the empty or
all-whitespace string converts to 0; a string of decimal digits, optionally
with a leading minus sign, converts to the corresponding integer). The inputs
reachable here are pieces of `HH:MM` time-input values, so the fractional,
exponent and hexadecimal forms of the host conversion are outside the model
and count as NaN. -/
def jsNumberInt : Option String → Option Int
  | none => none
  | some s =>
      let t := trimChars s.data
      if t = [] then some 0
      else if t.all Char.isDigit then some (Int.ofNat (digitsToNat t))
      else
        match t with
        | '-' :: rest =>
            if rest ≠ [] ∧ rest.all Char.isDigit then
              some (-(Int.ofNat (digitsToNat rest)))
            else none
        | _ => none

/-- Model of the `dayjs(value)` branch of `parseTimeToMinutes` for values
containing `T`: a well-formed local ISO datetime `YYYY-MM-DDTHH:MM[:SS]`
yields `hour * 60 + minute`, anything else is invalid. No theorem below
depends on this branch; the drawer feeds `HH:MM` time-input values. -/
def isoToMinutes (value : String) : Option Int :=
  match splitOnChar value 'T' with
  | [d, t] =>
      let dateParts := splitOnChar d '-'
      let timeParts := (splitOnChar t ':').take 2
      if dateParts.length == 3
          && dateParts.all (fun p => p.data.length > 0 && p.data.all Char.isDigit)
          && timeParts.length == 2
          && timeParts.all (fun p => p.data.length > 0 && p.data.all Char.isDigit) then
        match timeParts with
        | [h, m] =>
            let hv := digitsToNat h.data
            let mv := digitsToNat m.data
            if hv < 24 && mv < 60 then some ((hv : Int) * 60 + mv) else none
        | _ => none
      else none
  | _ => none

/-- `parseTimeToMinutes` from components/shift/ShiftEditorDrawer.vue: the
empty string is null; a value containing `T` goes through the dayjs ISO
branch; otherwise the value is split on `:` and both parts must convert to
numbers, yielding `hours * 60 + minutes`. -/
def parseTimeToMinutes (value : String) : Option Int :=
  if value = "" then none
  else if value.data.contains 'T' then isoToMinutes value
  else
    let parts := splitOnChar value ':'
    match jsNumberInt parts[0]?, jsNumberInt parts[1]? with
    | some hours, some minutes => some (hours * 60 + minutes)
    | _, _ => none

/-- `ONE_DAY_MINUTES = 24 * 60` (components/shift/ShiftEditorDrawer.vue). -/
def ONE_DAY_MINUTES : Int := 24 * 60

/-- One break input row of the drawer form (BreakRange in
components/shift/ShiftEditorDrawer.vue). -/
structure BreakRange where
  id : String
  start : String
  «end» : String
  deriving DecidableEq, Repr

/-- `getBreakDuration` (components/shift/ShiftEditorDrawer.vue): null when
either endpoint fails to parse; otherwise end minus start, plus one day when
that difference is ≤ 0. -/
def getBreakDuration (range : BreakRange) : Option Int :=
  match parseTimeToMinutes range.start, parseTimeToMinutes range.«end» with
  | some start, some stop =>
      let duration := stop - start
      some (if duration ≤ 0 then duration + ONE_DAY_MINUTES else duration)
  | _, _ => none

/-- `totalBreakMinutes` (components/shift/ShiftEditorDrawer.vue): fold over
the break rows, skipping rows whose duration is null. -/
def totalBreakMinutes (breaks : List BreakRange) : Int :=
  breaks.foldl
    (fun sum range =>
      match getBreakDuration range with
      | none => sum
      | some duration => sum + duration)
    0

/-- The per-row predicate inside `validateBreaks`
(components/shift/ShiftEditorDrawer.vue): a row with both endpoints empty is
skipped; any other row is invalid exactly when its duration is null. -/
def breakIsInvalid (range : BreakRange) : Bool :=
  if range.start = "" ∧ range.«end» = "" then false
  else (getBreakDuration range).isNone

/-- `validateBreaks` (components/shift/ShiftEditorDrawer.vue): true when no
break row is invalid; `handleSubmit` returns before any save request when
this is false, after surfacing a validation error notification. -/
def validateBreaks (breaks : List BreakRange) : Bool :=
  !(breaks.any breakIsInvalid)

theorem getBreakDuration_eq_none (range : BreakRange)
    (h : parseTimeToMinutes range.start = none ∨
      parseTimeToMinutes range.«end» = none) :
    getBreakDuration range = none := by
  cases h1 : parseTimeToMinutes range.start <;>
    cases h2 : parseTimeToMinutes range.«end» <;>
      simp_all [getBreakDuration]

theorem totalBreakMinutes_foldl_eq (breaks : List BreakRange) (acc : Int) :
    breaks.foldl
      (fun sum range =>
        match getBreakDuration range with
        | none => sum
        | some duration => sum + duration)
      acc = acc + (breaks.filterMap getBreakDuration).sum := by
  induction breaks generalizing acc with
  | nil => simp
  | cons head tail ih =>
      cases h : getBreakDuration head <;>
        simp [List.foldl, List.filterMap_cons, h, ih]
      ring

/-- C3: for every break row whose two endpoints both parse to
minutes-since-midnight, the computed duration is end − start when that
difference is positive and end − start + 1440 when it is ≤ 0; in particular
start 22:00 and end 05:00 give 420 minutes. -/
theorem C3_break_duration (range : BreakRange) (startMin endMin : Int)
    (hs : parseTimeToMinutes range.start = some startMin)
    (he : parseTimeToMinutes range.«end» = some endMin) :
    getBreakDuration range =
      some (if 0 < endMin - startMin then endMin - startMin
        else endMin - startMin + 1440) ∧
    getBreakDuration ⟨"b1", "22:00", "05:00"⟩ = some 420 := by
  refine ⟨?_, by decide⟩
  simp only [getBreakDuration, hs, he, ONE_DAY_MINUTES]
  by_cases hd : endMin - startMin ≤ 0
  · rw [if_pos hd, if_neg (by omega)]
    norm_num
  · rw [if_neg hd, if_pos (by omega)]

/-- C3 witness: the theorem applied to the overnight break 22:00 → 05:00,
whose endpoints parse to 1320 and 300 minutes and whose duration is 420. -/
theorem C3_break_duration_witness :
    parseTimeToMinutes (BreakRange.mk "b1" "22:00" "05:00").start = some 1320 ∧
    parseTimeToMinutes (BreakRange.mk "b1" "22:00" "05:00").«end» = some 300 ∧
    (getBreakDuration (BreakRange.mk "b1" "22:00" "05:00") =
      some (if 0 < (300 : Int) - 1320 then (300 : Int) - 1320
        else (300 : Int) - 1320 + 1440) ∧
    getBreakDuration ⟨"b1", "22:00", "05:00"⟩ = some 420) :=
  ⟨by decide, by decide,
    C3_break_duration (BreakRange.mk "b1" "22:00" "05:00") 1320 300
      (by decide) (by decide)⟩

/-- C6: a break row with exactly one endpoint set has a null (unknown)
duration rather than a zero one, the total break-minutes sum counts only the
rows whose duration is known, and the presence of such a row makes
`validateBreaks` fail, which aborts submission with a validation error. -/
theorem C6_break_validation (breaks : List BreakRange) (range : BreakRange)
    (hmem : range ∈ breaks)
    (hone : (range.start = "" ∧ range.«end» ≠ "") ∨
      (range.start ≠ "" ∧ range.«end» = "")) :
    getBreakDuration range = none ∧
    totalBreakMinutes breaks = (breaks.filterMap getBreakDuration).sum ∧
    validateBreaks breaks = false := by
  have hdur : getBreakDuration range = none := by
    apply getBreakDuration_eq_none
    rcases hone with ⟨h1, _⟩ | ⟨_, h2⟩
    · exact Or.inl (by rw [h1]; rfl)
    · exact Or.inr (by rw [h2]; rfl)
  have hinv : breakIsInvalid range = true := by
    rcases hone with ⟨h1, h2⟩ | ⟨h1, h2⟩ <;>
      simp [breakIsInvalid, h1, h2, hdur]
  refine ⟨hdur, ?_, ?_⟩
  · simpa using totalBreakMinutes_foldl_eq breaks 0
  · have hany : breaks.any breakIsInvalid = true :=
      List.any_eq_true.mpr ⟨range, hmem, hinv⟩
    simp [validateBreaks, hany]

/-- C6 witness: the theorem applied to a single-row break list whose row has a
start of 12:00 and an empty end. -/
theorem C6_break_validation_witness :
    BreakRange.mk "b1" "12:00" "" ∈ [BreakRange.mk "b1" "12:00" ""] ∧
    (((BreakRange.mk "b1" "12:00" "").start = "" ∧
        (BreakRange.mk "b1" "12:00" "").«end» ≠ "") ∨
      ((BreakRange.mk "b1" "12:00" "").start ≠ "" ∧
        (BreakRange.mk "b1" "12:00" "").«end» = "")) ∧
    (getBreakDuration (BreakRange.mk "b1" "12:00" "") = none ∧
    totalBreakMinutes [BreakRange.mk "b1" "12:00" ""] =
      (([BreakRange.mk "b1" "12:00" ""].filterMap getBreakDuration).sum) ∧
    validateBreaks [BreakRange.mk "b1" "12:00" ""] = false) :=
  ⟨by decide, by decide,
    C6_break_validation [BreakRange.mk "b1" "12:00" ""]
      (BreakRange.mk "b1" "12:00" "") (by decide) (by decide)⟩

/-- One special-allowance line of the salary response (api/salary.ts); only
the fields the salary page reads for its totals are embedded, with `amount`
optional because the page guards it with `?? 0`. -/
structure SpecialAllowance where
  type : String
  label : String
  amount : Option Int
  deriving DecidableEq, Repr

/-- The optional `specialAllowance` per-category group of the salary response
(src/unnamed/part_012). -/
structure SpecialAllowanceGroup where
  regular : Option Int
  lateNight : Option Int
  total : Option Int
  deriving DecidableEq, Repr

/-- The salary-summary response fields read by views/salary/SalaryPage.vue
(api/salary.ts and its revision in src/unnamed/part_012). Numeric fields the
page reads through `?? 0` are embedded as `Option Int`. -/
structure SalarySummary where
  baseWageTotal : Option Int
  nightExtraTotal : Option Int
  gameIncomeTotal : Option Int
  transportTotal : Option Int
  incomeTax : Option Int
  netSalary : Option Int
  advanceAmount : Option Int
  specialAllowanceTotal : Option Int
  specialAllowances : Option (List SpecialAllowance)
  specialAllowanceBreakdown : Option (List SpecialAllowance)
  specialAllowance : Option SpecialAllowanceGroup
  deriving DecidableEq, Repr

/-- The `salaryDisplay` reactive state of views/salary/SalaryPage.vue after
`fetchSalary` stored a response: every field is the response value with
`?? 0`. -/
structure SalaryDisplay where
  base : Int
  nightExtra : Int
  transport : Int
  out : Int
  deduction : Int
  netAfterTax : Int
  deriving DecidableEq, Repr

/-- The assignments `fetchSalary` performs into `salaryDisplay`
(views/salary/SalaryPage.vue). -/
def fetchSalaryDisplay (r : SalarySummary) : SalaryDisplay :=
  { base := r.baseWageTotal.getD 0
    nightExtra := r.nightExtraTotal.getD 0
    transport := r.transportTotal.getD 0
    out := r.gameIncomeTotal.getD 0
    deduction := r.incomeTax.getD 0
    netAfterTax := r.netSalary.getD 0 }

/-- `advancePayment.value = response.advanceAmount ?? 0`
(views/salary/SalaryPage.vue). -/
def advancePaymentOf (r : SalarySummary) : Int :=
  r.advanceAmount.getD 0

/-- `specialAllowanceItems` (views/salary/SalaryPage.vue):
`specialAllowanceBreakdown ?? specialAllowances ?? []`. -/
def specialAllowanceItems (r : SalarySummary) : List SpecialAllowance :=
  ((r.specialAllowanceBreakdown).orElse fun _ => r.specialAllowances).getD []

/-- `specialAllowanceTotal` (views/salary/SalaryPage.vue): the sum of the
breakdown amounts when the item list is non-empty, otherwise
`specialAllowance?.total ?? specialAllowanceTotal ?? 0` from the response. -/
def specialAllowanceTotalComputed (r : SalarySummary) : Int :=
  if (specialAllowanceItems r).length ≠ 0 then
    (specialAllowanceItems r).foldl (fun sum item => sum + item.amount.getD 0) 0
  else
    ((r.specialAllowance.bind SpecialAllowanceGroup.total).orElse
      (fun _ => r.specialAllowanceTotal)).getD 0

/-- `grossPay` (views/salary/SalaryPage.vue): base + night extra + special
allowance total + transport + game income. -/
def grossPay (r : SalarySummary) : Int :=
  let d := fetchSalaryDisplay r
  d.base + d.nightExtra + specialAllowanceTotalComputed r + d.transport + d.out

/-- `netAfterTaxComputed` (views/salary/SalaryPage.vue):
`salaryDisplay.netAfterTax ?? Math.max(0, grossPay - deduction)`; the reactive
field is a non-nullable number, so the fallback arm is unreachable and the
value is the stored `netSalary ?? 0`. -/
def netAfterTaxComputed (r : SalarySummary) : Int :=
  (fetchSalaryDisplay r).netAfterTax

/-- `totalPay` (views/salary/SalaryPage.vue):
`Math.max(0, netAfterTaxComputed - advance)`. -/
def totalPay (r : SalarySummary) : Int :=
  max 0 (netAfterTaxComputed r - advancePaymentOf r)

/-- C2: for every salary response, the displayed gross pay equals
baseWageTotal + nightExtraTotal + the displayed special-allowance total +
transportTotal + gameIncomeTotal, and the displayed final payable amount
equals max(0, netSalary − advanceAmount). -/
theorem C2_salary_totals (r : SalarySummary) (b n t g ns adv : Int)
    (hb : r.baseWageTotal = some b) (hn : r.nightExtraTotal = some n)
    (ht : r.transportTotal = some t) (hg : r.gameIncomeTotal = some g)
    (hns : r.netSalary = some ns) (hadv : r.advanceAmount = some adv) :
    grossPay r = b + n + specialAllowanceTotalComputed r + t + g ∧
    totalPay r = max 0 (ns - adv) := by
  constructor <;>
    simp [grossPay, totalPay, fetchSalaryDisplay, netAfterTaxComputed,
      advancePaymentOf, hb, hn, ht, hg, hns, hadv]

/-- A concrete salary response used to witness C2. -/
def sampleSalary : SalarySummary :=
  { baseWageTotal := some 120000
    nightExtraTotal := some 8000
    gameIncomeTotal := some 15000
    transportTotal := some 6000
    incomeTax := some 14000
    netSalary := some 135000
    advanceAmount := some 30000
    specialAllowanceTotal := some 4000
    specialAllowances := none
    specialAllowanceBreakdown := none
    specialAllowance := none }

/-- C2 witness: the theorem applied to a concrete salary response. -/
theorem C2_salary_totals_witness :
    sampleSalary.baseWageTotal = some 120000 ∧
    sampleSalary.nightExtraTotal = some 8000 ∧
    sampleSalary.transportTotal = some 6000 ∧
    sampleSalary.gameIncomeTotal = some 15000 ∧
    sampleSalary.netSalary = some 135000 ∧
    sampleSalary.advanceAmount = some 30000 ∧
    (grossPay sampleSalary =
        120000 + 8000 + specialAllowanceTotalComputed sampleSalary
          + 6000 + 15000 ∧
      totalPay sampleSalary = max 0 (135000 - 30000)) :=
  ⟨rfl, rfl, rfl, rfl, rfl, rfl,
    C2_salary_totals sampleSalary 120000 8000 6000 15000 135000 30000
      rfl rfl rfl rfl rfl rfl⟩

/-- A special hourly wage definition (api/specialWages.ts,
src/unnamed/part_007). -/
structure SpecialHourlyWage where
  id : Int
  label : String
  hourlyWage : Int
  deriving DecidableEq, Repr

/-- The orphan check of `fetchSpecialWages`
(components/shift/ShiftEditorDrawer.vue): once the wage list has loaded, a
selected id that does not occur in the list is reset to null. -/
def resolveSelectedSpecialWageId (wages : List SpecialHourlyWage)
    (selected : Option Int) : Option Int :=
  match selected with
  | none => none
  | some id => if wages.any (fun item => item.id == id) then some id else none

/-- `handleDeleteSpecialWage` (pages/settings/GameSettings.vue): after the
delete call succeeds, the local list keeps only the other ids. -/
def deleteSpecialWage (wages : List SpecialHourlyWage) (id : Int) :
    List SpecialHourlyWage :=
  wages.filter (fun item => item.id != id)

/-- Modelled from the spec: the SpecialAllowanceResolver of the payroll
computation (spec §4.5) is backend code absent from this repository snapshot;
per the spec it resolves the specialHourlyWageId reference of a shift against
the special-wage list, and a missing or deleted reference must degrade to no
special wage instead of failing. -/
def resolveSpecialWage (wages : List SpecialHourlyWage) (refId : Option Int) :
    Option SpecialHourlyWage :=
  refId.bind fun id => wages.find? (fun item => item.id == id)

/-- Modelled from the spec: the allowance amount of a shift is
`unitPrice × hours` for a resolved wage and 0 when the reference resolves to
no special wage (spec §4.5). -/
def specialAllowanceAmount (wages : List SpecialHourlyWage)
    (refId : Option Int) (hours : Int) : Int :=
  match resolveSpecialWage wages refId with
  | none => 0
  | some wage => wage.hourlyWage * hours

/-- C8: a shift referencing a special-wage id absent from the current list —
in particular after that definition was deleted — resolves to no special
wage, its allowance amount is 0, and the drawer resets the dangling selection
to null; every value involved is an ordinary result, not an error. -/
theorem C8_orphaned_special_wage (wages : List SpecialHourlyWage)
    (wageId : Int) (hours : Int)
    (habs : wages.all (fun item => item.id != wageId) = true) :
    resolveSpecialWage wages (some wageId) = none ∧
    specialAllowanceAmount wages (some wageId) hours = 0 ∧
    resolveSelectedSpecialWageId wages (some wageId) = none ∧
    resolveSpecialWage (deleteSpecialWage wages wageId) (some wageId) = none ∧
    specialAllowanceAmount (deleteSpecialWage wages wageId)
      (some wageId) hours = 0 := by
  have hfind : ∀ l : List SpecialHourlyWage, (∀ x ∈ l, x.id ≠ wageId) →
      l.find? (fun item => item.id == wageId) = none := by
    intro l hl
    apply List.find?_eq_none.mpr
    intro x hx
    simpa using hl x hx
  have h1 : ∀ x ∈ wages, x.id ≠ wageId := by
    intro x hx
    simpa using List.all_eq_true.mp habs x hx
  have h2 : ∀ x ∈ deleteSpecialWage wages wageId, x.id ≠ wageId := by
    intro x hx
    simp only [deleteSpecialWage] at hx
    simpa using (List.mem_filter.mp hx).2
  have hany : wages.any (fun item => item.id == wageId) = false := by
    simp only [List.any_eq_false]
    intro x hx
    simpa using h1 x hx
  refine ⟨?_, ?_, ?_, ?_, ?_⟩ <;>
    simp [resolveSpecialWage, specialAllowanceAmount,
      resolveSelectedSpecialWageId, hfind wages h1,
      hfind (deleteSpecialWage wages wageId) h2, hany]

/-- C8 witness: the theorem applied to a one-element wage list and an absent
reference id. -/
theorem C8_orphaned_special_wage_witness :
    ([⟨1, "late night aid", 500⟩] :
        List SpecialHourlyWage).all (fun item => item.id != 2) = true ∧
    (resolveSpecialWage [⟨1, "late night aid", 500⟩] (some 2) = none ∧
    specialAllowanceAmount [⟨1, "late night aid", 500⟩] (some 2) 8 = 0 ∧
    resolveSelectedSpecialWageId [⟨1, "late night aid", 500⟩] (some 2) = none ∧
    resolveSpecialWage (deleteSpecialWage [⟨1, "late night aid", 500⟩] 2)
      (some 2) = none ∧
    specialAllowanceAmount (deleteSpecialWage [⟨1, "late night aid", 500⟩] 2)
      (some 2) 8 = 0) :=
  ⟨by decide, C8_orphaned_special_wage [⟨1, "late night aid", 500⟩] 2 8
    (by decide)⟩

/-- Truthiness of an optional JavaScript string: null/undefined and the empty
string are falsy, every other string is truthy. -/
def jsTruthyString : Option String → Bool
  | none => false
  | some s => s != ""

/-- Truthiness of an optional JavaScript boolean: null/undefined and false are
falsy. -/
def jsTruthyBool : Option Bool → Bool
  | none => false
  | some b => b

/-- The fields of a game result record read by the result list view
(types/gameResult.ts, the revision carrying the simple-batch fields). -/
structure GameResultRecord where
  id : String
  simpleBatchId : Option String
  isFinalRecord : Option Bool
  deriving DecidableEq, Repr

/-- `isEditable` (views/results/ResultList.vue):
`!record.simpleBatchId && !record.isFinalRecord`. -/
def isEditable (record : GameResultRecord) : Bool :=
  !(jsTruthyString record.simpleBatchId) && !(jsTruthyBool record.isFinalRecord)

/-- Outcome of `handleEdit` (views/results/ResultList.vue): either a warning
toast with no navigation, or navigation to the edit route. -/
inductive EditAction
  | warn
  | navigate (path : String)
  deriving DecidableEq, Repr

/-- `handleEdit` (views/results/ResultList.vue): a non-editable record only
shows a warning; an editable one navigates to its edit form. -/
def handleEdit (record : GameResultRecord) : EditAction :=
  if isEditable record then
    EditAction.navigate ("/results/" ++ record.id ++ "/edit")
  else EditAction.warn

/-- C9: every game result record with isFinalRecord set, or carrying a
(non-empty) simpleBatchId, is excluded from the normal edit flow: isEditable
is false and the edit handler only shows a warning, never navigating to the
edit form. -/
theorem C9_final_record_immutable (record : GameResultRecord)
    (h : record.isFinalRecord = some true ∨
      ∃ s, record.simpleBatchId = some s ∧ s ≠ "") :
    isEditable record = false ∧ handleEdit record = EditAction.warn := by
  have hfalse : isEditable record = false := by
    rcases h with h | ⟨s, hs, hne⟩
    · simp [isEditable, jsTruthyBool, h]
    · simp [isEditable, jsTruthyString, hs, hne]
  exact ⟨hfalse, by simp [handleEdit, hfalse]⟩

/-- C9 witness: the theorem applied to a concrete final record. -/
theorem C9_final_record_immutable_witness :
    ((GameResultRecord.mk "r1" (some "batch-7") (some true)).isFinalRecord =
        some true ∨
      ∃ s, (GameResultRecord.mk "r1" (some "batch-7")
        (some true)).simpleBatchId = some s ∧ s ≠ "") ∧
    (isEditable (GameResultRecord.mk "r1" (some "batch-7") (some true)) =
        false ∧
      handleEdit (GameResultRecord.mk "r1" (some "batch-7") (some true)) =
        EditAction.warn) :=
  ⟨Or.inl rfl,
    C9_final_record_immutable
      (GameResultRecord.mk "r1" (some "batch-7") (some true)) (Or.inl rfl)⟩

/-- A JavaScript `number | null | undefined` store id value; `num` holds the
finite numbers, while NaN and the infinities are number-typed but not
finite. -/
inductive StoreIdValue
  | undef
  | null
  | num (value : Int)
  | nanValue
  | infinity
  | negInfinity
  deriving DecidableEq, Repr

/-- `isValidStoreId` (utils/shiftStore.ts):
`typeof value === 'number' && Number.isFinite(value)`. -/
def isValidStoreId : StoreIdValue → Bool
  | StoreIdValue.num _ => true
  | _ => false

/-- `ShiftUserRole` (utils/shiftStore.ts). -/
inductive ShiftUserRole
  | ADMIN
  | MEMBER
  deriving DecidableEq, Repr

/-- `ShiftStoreResolutionInput` (utils/shiftStore.ts). -/
structure ShiftStoreResolutionInput where
  role : ShiftUserRole
  selectedStoreId : StoreIdValue
  fallbackStoreId : StoreIdValue
  deriving DecidableEq, Repr

/-- `resolveShiftStoreId` (utils/shiftStore.ts): an ADMIN requires a finite
selectedStoreId and never falls back; the remaining role (MEMBER) requires a
finite fallbackStoreId. The `num` match arms are the `isValidStoreId` type
guards of the source; throws are embedded as `Except.error` of the message. -/
def resolveShiftStoreId (input : ShiftStoreResolutionInput) :
    Except String Int :=
  match input.role with
  | ShiftUserRole.ADMIN =>
      match input.selectedStoreId with
      | StoreIdValue.num value => Except.ok value
      | _ => Except.error "STORE_SELECTION_REQUIRED"
  | ShiftUserRole.MEMBER =>
      match input.fallbackStoreId with
      | StoreIdValue.num value => Except.ok value
      | _ => Except.error "HOME_STORE_UNAVAILABLE"

/-- `tryResolveShiftStoreId` (utils/shiftStore.ts): catches the throw of
`resolveShiftStoreId` and returns null in its place. -/
def tryResolveShiftStoreId (input : ShiftStoreResolutionInput) : Option Int :=
  (resolveShiftStoreId input).toOption

/-- C10: resolveShiftStoreId with role ADMIN succeeds with selectedStoreId
exactly when that is a finite number and otherwise throws
STORE_SELECTION_REQUIRED, never falling back; with role MEMBER it succeeds
with fallbackStoreId exactly when that is a finite number and otherwise
throws HOME_STORE_UNAVAILABLE; tryResolveShiftStoreId is null exactly when
resolveShiftStoreId throws and returns the same store id otherwise. -/
theorem C10_store_resolution (input : ShiftStoreResolutionInput)
    (value : Int) :
    (resolveShiftStoreId input = Except.ok value ↔
      (input.role = ShiftUserRole.ADMIN ∧
        input.selectedStoreId = StoreIdValue.num value) ∨
      (input.role = ShiftUserRole.MEMBER ∧
        input.fallbackStoreId = StoreIdValue.num value)) ∧
    (resolveShiftStoreId input = Except.error "STORE_SELECTION_REQUIRED" ↔
      input.role = ShiftUserRole.ADMIN ∧
        isValidStoreId input.selectedStoreId = false) ∧
    (resolveShiftStoreId input = Except.error "HOME_STORE_UNAVAILABLE" ↔
      input.role = ShiftUserRole.MEMBER ∧
        isValidStoreId input.fallbackStoreId = false) ∧
    (tryResolveShiftStoreId input = none ↔
      ∃ message, resolveShiftStoreId input = Except.error message) ∧
    (tryResolveShiftStoreId input = some value ↔
      resolveShiftStoreId input = Except.ok value) := by
  obtain ⟨role, selected, fallback⟩ := input
  cases role <;> cases selected <;> cases fallback <;>
    simp [resolveShiftStoreId, tryResolveShiftStoreId, isValidStoreId,
      Except.toOption]
